import Mathlib

/-!
Verification development for the Extracting-Data pipeline.

The pipeline (src/extraction.py, src/h5_to_csv.py) walks a dataset
directory, classifies filenames, extracts sensor channels from two binary
formats (.mat via scipy.io.loadmat, .tdms via nptdms), writes one HDF5
entry per input file, and flattens eligible entries to CSV tables.

This file gives a shallow embedding of that code: Python dynamic values
are modelled by a small inductive type, numpy arrays by `NDArray`,
rationals stand for IEEE floats (the checks under verification only
compare, never round), and the module-level mutable loop is an explicit
fold over a state record.  Each definition is translated from the source
function named in its doc comment.
-/

namespace ExtractingData

/-- Model of a numeric numpy ndarray: the shape tuple plus the flattened
(C-order) entries.  The source's structural decisions consult only
`shape` / `ndim` / `size`; numpy's `size` is the product of the shape. -/
structure NDArray where
  shape : List Nat
  data : List ℚ
deriving DecidableEq

/-- numpy `ndim`. -/
def NDArray.ndim (a : NDArray) : Nat := a.shape.length

/-- numpy `size` (product of the shape tuple). -/
def NDArray.size (a : NDArray) : Nat := a.shape.prod

/-- numpy `shape[0]` (only consulted by the source when the array is known
to be at least 1-D). -/
def NDArray.rows (a : NDArray) : Nat := a.shape.headD 0

/-- numpy `shape[1]` for 2-D arrays. -/
def NDArray.cols (a : NDArray) : Nat := a.shape.getD 1 0

/-- Substring test on character lists (Python's `in` on strings). -/
def listContainsSub (pat s : List Char) : Bool :=
  s.tails.any (fun t => pat.isPrefixOf t)

/-- The metadata dictionary built by `parse_filename` (src/extraction.py
lines 55-64).  `sensor_type` is a plain `String`: for every filename the
regex accepts, the extension is `mat` or `tdms`, so one of the assignment
branches at lines 42-52 always fires. -/
structure FileDescriptor where
  filename : String
  load : String
  condition : String
  severity : String
  extension : String
  sensor_type : String
  filepath : String
deriving DecidableEq

/-- Capture groups of a successful match of
`^(\d+Nm)_([^_]+)(_)?([^.]*)\.(mat|tdms)$` (case-insensitive), in the
leftmost-greedy reading CPython's `re` engine produces. -/
structure RegexGroups where
  g1 : List Char
  g2 : List Char
  g3 : Bool
  g4 : List Char
  g5 : List Char
deriving DecidableEq

/-- Match `([^_]+)(_)?([^.]*)\.(mat|tdms)$` against `r`, returning the
captures `(condition, underscore-present, severity, extension)`.

Because `[^.]*` cannot cross a dot and `(mat|tdms)` is dot-free, the `\.`
literal necessarily consumes the LAST dot of `r`; the greedy `[^_]+`
then absorbs everything up to the first underscore of the part before
that dot (underscores are excluded from group 2, dots are not), and the
remaining pre-dot text must itself be dot-free or the whole match fails.
End-of-string anchoring is modelled strictly (the CPython quirk that `$`
also matches before a trailing newline is not reproduced: no filename in
scope carries a newline). -/
def matchTail (r : List Char) : Option (List Char × Bool × List Char × List Char) :=
  let rev := r.reverse
  let erev := rev.takeWhile (fun c => c ≠ '.')
  let rest := rev.dropWhile (fun c => c ≠ '.')
  match rest with
  | [] => none
  | _ :: zrev =>
    let e := erev.reverse
    let z := zrev.reverse
    let el := e.map Char.toLower
    if el = "mat".data ∨ el = "tdms".data then
      match z with
      | [] => none
      | c0 :: _ =>
        if c0 = '_' then none
        else
          let c := z.takeWhile (fun ch => ch ≠ '_')
          let rest2 := z.dropWhile (fun ch => ch ≠ '_')
          if rest2.any (fun ch => ch = '.') then none
          else
            match rest2 with
            | [] => some (c, false, [], e)
            | _ :: v => some (c, true, v, e)
    else none

/-- Full match of `^(\d+Nm)_([^_]+)(_)?([^.]*)\.(mat|tdms)$` with
`re.IGNORECASE` (src/extraction.py line 26).  `\d+` is forced maximal
(no digit can begin the case-insensitive literal `Nm`), then the literal
underscore, then `matchTail`. -/
def regexMatch (s : List Char) : Option RegexGroups :=
  let ds := s.takeWhile Char.isDigit
  let r1 := s.dropWhile Char.isDigit
  if ds = [] then none
  else
    match r1 with
    | n :: m :: u :: r =>
      if n.toLower = 'n' ∧ m.toLower = 'm' ∧ u = '_' then
        match matchTail r with
        | some (c, g3, v, e) => some ⟨ds ++ [n, m], c, g3, v, e⟩
        | none => none
      else none
    | _ => none

/-- Sensor-type hint from the containing directory (src/extraction.py
lines 38-52); `os.sep` is `/` on the platform the pipeline runs on.  The
final branch collapses the `mat`/`tdms` fallbacks: callers only reach it
with one of those two extensions. -/
def inferSensorType (ext : String) (filepath : String) : String :=
  let p : String := ⟨filepath.data.map Char.toLower⟩
  if listContainsSub "/acoustic/".data p.data then "Acoustic"
  else if listContainsSub "/vibration/".data p.data then "Vibration"
  else if listContainsSub "/current,temp/".data p.data then "Temp_Current"
  else if ext = "mat" then "Mat_Unknown_Path"
  else "TDMS_Unknown_Path"

/-- `parse_filename` (src/extraction.py lines 10-68): regex match, then
the descriptor; an empty severity capture becomes the `No_Severity`
sentinel (line 33); non-matching filenames yield `None` (line 68). -/
def parse_filename (filename filepath : String) : Option FileDescriptor :=
  match regexMatch filename.data with
  | none => none
  | some g =>
    let ext : String := ⟨g.g5.map Char.toLower⟩
    some { filename := filename
           load := ⟨g.g1⟩
           condition := ⟨g.g2⟩
           severity := if g.g4 = [] then "No_Severity" else ⟨g.g4⟩
           extension := ext
           sensor_type := inferSensorType ext filepath
           filepath := filepath }

/-- The severity capture (group 4) of the filename grammar, when the
filename matches. -/
def sevToken (fn : String) : Option (List Char) :=
  (regexMatch fn.data).map RegexGroups.g4

end ExtractingData

namespace ExtractingData

/-- Model of the Python dynamic values `scipy.io.loadmat` produces at the
places `extract_data_from_mat` inspects: numeric ndarrays, object-dtype
ndarrays, `numpy.void` records (field-name/value lists), plain numeric
scalars, and anything else. -/
inductive PyVal where
  | arr (a : NDArray)
  | objArr (shape : List Nat) (elems : List PyVal)
  | void (fields : List (String × PyVal))
  | num (q : ℚ)
  | other

/-- Python `int(x)` on a float: truncation toward zero. -/
def pyInt (q : ℚ) : Int := Int.tdiv q.num q.den

/-- The `isinstance ndarray ∧ shape == (1,1) ∧ dtype.hasobject ∧ size > 0`
pattern followed by the `[0, 0]` access (src/extraction.py lines 177-183,
212-213, 284-285).  A real `(1,1)` object array always holds exactly one
element, so the `size > 0` check is modelled as the element list being
non-empty. -/
def isObj11 : PyVal → Option PyVal
  | .objArr shape elems => if shape = [1, 1] then elems.head? else none
  | _ => none

/-- View a value as a `numpy.void` record. -/
def voidFields : PyVal → Option (List (String × PyVal))
  | .void fields => some fields
  | _ => none

/-- Record of the state `extract_data_from_mat` returns
(src/extraction.py lines 142-148, 386-417). -/
structure ExtractedInfo where
  metadata : FileDescriptor
  sensor_values : List (String × NDArray)
  timestamps : Option (List ℚ)
  sample_rate : Option ℚ
  inferred_sensor_type : String
  sensor_names : List String
  extraction_error : Option String
deriving DecidableEq

/-- Key selection at src/extraction.py lines 156-163: `Signal` first, then
`signal`; `none` means the function fails hard (`return None`). -/
def matMainKey (root : List (String × PyVal)) : Option String :=
  if (root.lookup "Signal").isSome then some "Signal"
  else if (root.lookup "signal").isSome then some "signal"
  else none

/-- Locating the main structured record (src/extraction.py lines 176-200):
the container under the main key must be a `(1,1)` object ndarray whose
single element is a `numpy.void` with `x_values` and `y_values` fields;
any other shape makes the whole function `return None` (line 200). -/
def matMainRecord (root : List (String × PyVal)) : Option (List (String × PyVal)) := do
  let k ← matMainKey root
  let container ← root.lookup k
  let cand ← isObj11 container
  let fields ← voidFields cand
  if (fields.lookup "x_values").isSome ∧ (fields.lookup "y_values").isSome then
    pure fields
  else none

/-- Defensive scalar extraction (src/extraction.py lines 220-246): a
size-1-or-larger ndarray yields `flatten()[0]`, a plain scalar yields
itself, anything else raises (→ `none`, caught at lines 260-263). -/
def getScalar : PyVal → Option ℚ
  | .arr a => if 0 < a.size then a.data.head? else none
  | .num q => some q
  | _ => none

/-- Extraction of `(start_value, increment, number_of_values)` from the
`x_values` field (src/extraction.py lines 208-249).  Any structural or
scalar-extraction failure raises inside the `try`, leaving the time
information unset. -/
def matTimeParams (fields : List (String × PyVal)) : Option (ℚ × ℚ × Int) := do
  let xv ← fields.lookup "x_values"
  let inner ← isObj11 xv
  let tfs ← voidFields inner
  if (tfs.lookup "start_value").isSome ∧ (tfs.lookup "increment").isSome ∧
     (tfs.lookup "number_of_values").isSome then
    let s ← getScalar (← tfs.lookup "start_value")
    let i ← getScalar (← tfs.lookup "increment")
    let nq ← getScalar (← tfs.lookup "number_of_values")
    pure (s, i, pyInt nq)
  else none

/-- Timestamp/sample-rate reconstruction from the time parameters
(src/extraction.py lines 252-257): only when `increment > 0` and
`number_of_values > 0` do we get `timestamps = arange(n)*incr + start`
and `sample_rate = 1/incr`. -/
def matTimeInfo (fields : List (String × PyVal)) : Option (List ℚ) × Option ℚ :=
  match matTimeParams fields with
  | some (s, i, n) =>
    if 0 < i ∧ 0 < n then
      (some ((List.range n.toNat).map (fun k : Nat => (k : ℚ) * i + s)), some (1 / i))
    else (none, none)
  | none => (none, none)

/-- Channel reshaping in `extract_data_from_mat` (src/extraction.py lines
310-318).  The 1-D branch at line 315 reads the undefined name
`values_values_array_candidate` (a typo for `values_array_candidate`), so
it raises `NameError`; `none` models that exception, which the handler at
line 348 turns into an empty channel mapping. -/
def reshapeMat (a : NDArray) : Option NDArray :=
  if a.ndim = 1 then none
  else if 2 < a.ndim then some ⟨[a.size, 1], a.data⟩
  else some a

/-- Channel naming from the path hint (src/extraction.py lines 295-307),
returning `(inferred_sensor_type, sensor_name)`. -/
def matSensorName (hint : String) : String × String :=
  if hint = "Vibration" then ("Vibration (Structured Mat)", "Vibration_Signal")
  else if hint = "Acoustic" then ("Acoustic (Structured Mat)", "Acoustic_Signal")
  else ("Mat_Structured_Unknown", hint ++ "_Signal")

/-- The `y_values` pass (src/extraction.py lines 280-351): unwrap the
`(1,1)` object array, require a `numpy.void` with a `values` field whose
content is a non-empty numeric ndarray, update the inferred type, then
reshape.  Every failure branch ends with `sensor_values = {}`; the
inferred type is only updated once the `values` array has been accepted
(lines 299-307 run before the reshape that can raise). -/
def matYValues (fields : List (String × PyVal)) (hint : String) :
    List (String × NDArray) × Option String :=
  let found : Option NDArray := do
    let yv ← fields.lookup "y_values"
    let inner ← isObj11 yv
    let sfs ← voidFields inner
    let v ← sfs.lookup "values"
    match v with
    | .arr a => if 0 < a.size then some a else none
    | _ => none
  match found with
  | some a =>
    let p := matSensorName hint
    match reshapeMat a with
    | some b => ([(p.2, b)], some p.1)
    | none => ([], some p.1)
  | none => ([], none)

/-- First sensor entry with non-empty data
(`next((name for name, arr in ... if arr.size > 0), None)`). -/
def firstNonEmpty (sv : List (String × NDArray)) : Option (String × NDArray) :=
  sv.find? (fun p => 0 < p.2.size)

/-- Fallback timestamp synthesis (src/extraction.py lines 358-366):
`arange(num_samples) / sample_rate` with `num_samples` the row count of
the first non-empty channel. -/
def matFallback1 (rate : ℚ) (sv : List (String × NDArray)) : Option (List ℚ) :=
  match firstNonEmpty sv with
  | some p => some ((List.range p.2.rows).map (fun k : Nat => (k : ℚ) / rate))
  | none => none

/-- Consecutive differences (`np.diff`). -/
def listDiffs : List ℚ → List ℚ
  | a :: b :: t => (b - a) :: listDiffs (b :: t)
  | _ => []

/-- Arithmetic mean (`np.mean`). -/
def listMean (l : List ℚ) : ℚ := l.sum / l.length

/-- Fallback sample-rate derivation from timestamps (src/extraction.py
lines 371-382): reciprocal of the mean of strictly positive consecutive
differences, else the reciprocal of the single repeating difference. -/
def matFallback2 (ts : List ℚ) : Option ℚ :=
  let ds := listDiffs ts
  let pos := ds.filter (fun d => 0 < d)
  if pos ≠ [] then some (1 / listMean pos)
  else if ds.dedup.length = 1 ∧ 0 < ds.headD 0 then some (1 / ds.headD 0)
  else none

/-- `extract_data_from_mat` (src/extraction.py lines 137-417) on the
already-loaded container dictionary.  `none` is Python's `None`, returned
only at lines 163 and 200 (missing main key / malformed main record).
The two fallbacks are the `if`/`elif` at lines 358-382; the final
classification at lines 386-396 sets the error field but still returns
the record. -/
def extract_data_from_mat (root : List (String × PyVal)) (md : FileDescriptor) :
    Option ExtractedInfo :=
  match matMainRecord root with
  | none => none
  | some fields =>
    let tssr := matTimeInfo fields
    let yv := matYValues fields md.sensor_type
    let sv := yv.1
    let inferred := yv.2.getD md.sensor_type
    let hasNE := sv.any (fun p => 0 < p.2.size)
    let tssr1 :=
      if tssr.1 = none ∧ tssr.2.isSome ∧ sv ≠ [] ∧ hasNE then
        (match tssr.2 with
         | some r => matFallback1 r sv
         | none => none, tssr.2)
      else if tssr.2 = none ∧ tssr.1.isSome ∧ 1 < (tssr.1.getD []).length ∧
              sv ≠ [] ∧ hasNE then
        (tssr.1, matFallback2 (tssr.1.getD []))
      else tssr
    let names := (sv.filter (fun p => 0 < p.2.size)).map (fun p => p.1)
    if sv = [] ∨ names = [] then
      some { metadata := md, sensor_values := sv, timestamps := tssr1.1,
             sample_rate := tssr1.2, inferred_sensor_type := inferred,
             sensor_names := names,
             extraction_error := some "No non-empty sensor values extracted." }
    else
      some { metadata := md, sensor_values := sv, timestamps := tssr1.1,
             sample_rate := tssr1.2, inferred_sensor_type := inferred,
             sensor_names := names, extraction_error := none }

end ExtractingData

namespace ExtractingData

/-- TDMS channel property values the source inspects: numbers, strings,
or Python `None`.  Strings that `float()` would accept are outside the
modelled domain (the waveform properties of these files are numeric). -/
inductive TProp where
  | pnum (q : ℚ)
  | pstr (s : String)
  | pnone
deriving DecidableEq

/-- Outcome of the `channel_obj.data` access (src/extraction.py line 510):
a numpy array, a raised read error (caught per channel at line 526), or a
non-array value (warned about and skipped at line 522). -/
inductive TChanData where
  | okArr (a : NDArray)
  | readErr (msg : String)
  | nonArray
deriving DecidableEq

/-- One TDMS channel: raw identifier, property set, data access result. -/
structure TdmsChannel where
  name : String
  properties : List (String × TProp)
  cdata : TChanData
deriving DecidableEq

/-- One TDMS group. -/
structure TdmsGroup where
  name : String
  channels : List TdmsChannel
deriving DecidableEq

/-- A parsed TDMS file (the groups `TdmsFile.open` exposes). -/
structure TdmsFileM where
  groups : List TdmsGroup
deriving DecidableEq

/-- Record of the state `extract_data_from_tdms` returns
(src/extraction.py lines 430-439, 616-631).  `sensor_names` is an
`Option` because exception/early-return paths leave that key absent. -/
structure TdmsInfo where
  metadata : FileDescriptor
  sensor_values : List (String × NDArray)
  raw_channel_names : List String
  channel_properties : List (String × List (String × TProp))
  all_channel_properties_raw : List (String × List (String × TProp))
  timestamps : Option (List ℚ)
  sample_rate : Option ℚ
  inferred_sensor_type : String
  extraction_error : Option String
  extraction_warning : Option String
  channel_read_errors : List (String × String)
  sensor_names : Option (List String)
deriving DecidableEq

/-- The record as first initialised (src/extraction.py lines 430-439). -/
def tdmsBase (md : FileDescriptor) : TdmsInfo :=
  { metadata := md, sensor_values := [], raw_channel_names := [],
    channel_properties := [], all_channel_properties_raw := [],
    timestamps := none, sample_rate := none,
    inferred_sensor_type := "Temp_Current (TDMS)", extraction_error := none,
    extraction_warning := none, channel_read_errors := [],
    sensor_names := none }

/-- First pass over the group's channels (src/extraction.py lines
473-489): collect properties of every allow-listed channel and derive the
sample rate from the first valid positive `wf_increment`.  A string-typed
`wf_increment` makes the `> 0` comparison raise `TypeError`, which the
function-level handler turns into a record carrying the properties
gathered so far (the `sample_rate` assignment at line 491 is never
reached); the `.error` result carries those partial properties. -/
def tdmsFirstPass (names : List String) :
    List TdmsChannel → List (String × List (String × TProp)) → Option ℚ →
    List TdmsChannel →
    Except (List (String × List (String × TProp)))
      (List (String × List (String × TProp)) × Option ℚ × List TdmsChannel)
  | [], props, rate, conf => .ok (props, rate, conf)
  | ch :: rest, props, rate, conf =>
    if ch.name ∈ names then
      let props1 := props ++ [(ch.name, ch.properties)]
      let conf1 := conf ++ [ch]
      match rate with
      | some r => tdmsFirstPass names rest props1 (some r) conf1
      | none =>
        match ch.properties.lookup "wf_increment" with
        | some (.pnum q) =>
          if 0 < q then tdmsFirstPass names rest props1 (some (1 / q)) conf1
          else tdmsFirstPass names rest props1 none conf1
        | some (.pstr _) => .error props1
        | some .pnone => tdmsFirstPass names rest props1 none conf1
        | none => tdmsFirstPass names rest props1 none conf1
    else tdmsFirstPass names rest props rate conf

/-- Raw-identifier cleanup used for de-duplicating descriptive names
(src/extraction.py line 558: `raw.replace('/', '_').replace('~', '_')`). -/
def cleanRawId (s : String) : String :=
  ⟨s.data.map (fun c => if c = '/' ∨ c = '~' then '_' else c)⟩

/-- Channel reshaping in `extract_data_from_tdms` (src/extraction.py
lines 561-565): 1-D becomes `(N,1)`, more than 2-D is flattened to
`(N,1)` with a warning, 2-D is kept. -/
def reshapeTdms (a : NDArray) : NDArray :=
  if a.ndim = 1 then ⟨[a.size, 1], a.data⟩
  else if 2 < a.ndim then ⟨[a.size, 1], a.data⟩
  else a

/-- Naming pass over the successfully-read non-empty channels
(src/extraction.py lines 536-570): `Temperature_i` / `Current_i` from the
`DAC~Channel~Type` property, raw name otherwise, suffix-de-duplication,
then reshape.  Returns the `(sensor_values, channel_properties)` lists in
insertion order.  The fold state is
`(temp_count, current_count, processed names, sensor_values, props)`. -/
def tdmsNamingStep (allProps : List (String × List (String × TProp)))
    (st : Nat × Nat × List String × List (String × NDArray) ×
          List (String × List (String × TProp)))
    (p : String × NDArray) :
    Nat × Nat × List String × List (String × NDArray) ×
    List (String × List (String × TProp)) :=
  let raw := p.1
  let propsRaw := (allProps.lookup raw).getD []
  let ctype := propsRaw.lookup "DAC~Channel~Type"
  let tc := st.1
  let cc := st.2.1
  let processed := st.2.2.1
  let sv := st.2.2.2.1
  let cp := st.2.2.2.2
  let next :=
    if ctype = some (.pstr "Temperature") then
      (tc + 1, cc, "Temperature_" ++ toString (tc + 1))
    else if ctype = some (.pstr "Current") then
      (tc, cc + 1, "Current_" ++ toString (cc + 1))
    else (tc, cc, raw)
  let name0 := next.2.2
  let name := if name0 ∈ processed then name0 ++ "_" ++ cleanRawId raw else name0
  (next.1, next.2.1, processed ++ [name], sv ++ [(name, reshapeTdms p.2)],
   cp ++ [(name, propsRaw)])

/-- `extract_data_from_tdms` (src/extraction.py lines 423-631) on the
already-opened file.  The group lookup failure (lines 457-461), the
missing-allow-listed-channels case (lines 494-498), the per-channel read
pass (lines 501-529), naming (lines 536-570) and timestamp synthesis
(lines 583-611) all end in a returned record; the function never returns
Python `None`. -/
def extract_data_from_tdms (f : TdmsFileM) (md : FileDescriptor)
    (gname : String) (cnames : List String) : TdmsInfo :=
  match f.groups.find? (fun g => g.name = gname) with
  | none =>
    { tdmsBase md with
      extraction_error := some ("Group '" ++ gname ++ "' not found.") }
  | some g =>
    match tdmsFirstPass cnames g.channels [] none [] with
    | .error partialProps =>
      { tdmsBase md with
        all_channel_properties_raw := partialProps,
        extraction_error :=
          some "Unhandled error: '>' not supported between instances of 'str' and 'int'" }
    | .ok (props, rate, conf) =>
      let base1 := { tdmsBase md with
                     all_channel_properties_raw := props, sample_rate := rate }
      if conf.isEmpty then
        { base1 with
          extraction_warning := some "Configured channels not found in group." }
      else
        let channelDatas := conf.filterMap (fun ch =>
          match ch.cdata with
          | .okArr a => if 0 < a.size then some (ch.name, a) else none
          | _ => none)
        let rawNames := channelDatas.map (fun p => p.1)
        let readErrs := conf.filterMap (fun ch =>
          match ch.cdata with
          | .readErr msg => some (ch.name, msg)
          | _ => none)
        let named := channelDatas.foldl (tdmsNamingStep props) (0, 0, [], [], [])
        let sv := named.2.2.2.1
        let cp := named.2.2.2.2
        let ts : Option (List ℚ) :=
          match rate with
          | none => none
          | some r =>
            if sv ≠ [] ∧ sv.any (fun p => 0 < p.2.size) then
              match firstNonEmpty sv with
              | some p =>
                let off : ℚ :=
                  match rawNames with
                  | [] => 0
                  | r0 :: _ =>
                    match ((props.lookup r0).getD []).lookup "wf_start_offset" with
                    | some (.pnum q) => q
                    | some _ => 0
                    | none => 0
                if 0 < p.2.rows then
                  some ((List.range p.2.rows).map (fun k : Nat => (k : ℚ) * (1 / r) + off))
                else none
              | none => none
            else none
        { base1 with
          sensor_values := sv, raw_channel_names := rawNames,
          channel_properties := cp, channel_read_errors := readErrs,
          timestamps := ts,
          sensor_names :=
            some ((sv.filter (fun p => 0 < p.2.size)).map (fun p => p.1)) }

end ExtractingData

namespace ExtractingData

/-- Single quote character (written via its code point to keep the
character set of value positions simple). -/
def sqChar : Char := Char.ofNat 39

/-- Double quote character. -/
def dqChar : Char := Char.ofNat 34

/-- Character-level substitution of the group-name sanitization
(src/extraction.py line 934).  The source chains `str.replace` calls;
since every replaced pattern is a single character and no replacement
output is itself replaced later, the chain is equivalent to one pass over
the characters.  `os.sep` is `/`, replaced by a double underscore. -/
def sanGroupChar (c : Char) : List Char :=
  if c = '/' then ['_', '_']
  else if c = '.' ∨ c = ' ' ∨ c = '-' ∨ c = ':' ∨ c = '<' ∨ c = '>' ∨ c = '~' then ['_']
  else if c = '[' ∨ c = ']' ∨ c = sqChar ∨ c = dqChar then []
  else [c]

/-- Character-level substitution of the attribute-key sanitization
(src/extraction.py line 960).  Note the smaller substitution set: no
`<`, `>`, quote, slash or backslash handling. -/
def sanAttrChar (c : Char) : List Char :=
  if c = '.' ∨ c = '~' ∨ c = ' ' ∨ c = '-' ∨ c = ':' then ['_']
  else if c = '[' ∨ c = ']' then []
  else [c]

/-- Character-level substitution of the dataset-name sanitization
(src/extraction.py line 1118): like the group substitution but `/` and
`\` both become a single underscore. -/
def sanDataChar (c : Char) : List Char :=
  if c = '.' ∨ c = '/' ∨ c = '\\' ∨ c = ' ' ∨ c = '-' ∨ c = ':' ∨ c = '<' ∨
     c = '>' ∨ c = '~' then ['_']
  else if c = '[' ∨ c = ']' ∨ c = sqChar ∨ c = dqChar then []
  else [c]

/-- Whether a sanitized name passes the `name[0].isalnum()` test (Python's
check, restricted to the ASCII names occurring in this pipeline). -/
def leadOk : List Char → Bool
  | [] => false
  | c :: _ => c.isAlphanum

/-- The `if not name or not name[0].isalnum(): name = PRE + name.lstrip('_')`
step shared by all three sanitization sites. -/
def fixLead (pre : List Char) (s : List Char) : List Char :=
  if leadOk s then s else pre ++ s.dropWhile (fun c => c = '_')

/-- Apply a character substitution to a whole string. -/
def sanitizeCore (sub : Char → List Char) (s : List Char) : List Char :=
  s.flatMap sub

/-- HDF5 group-name sanitization (src/extraction.py lines 934-936). -/
def sanitizeGroupName (s : String) : String :=
  ⟨fixLead "file_".data (sanitizeCore sanGroupChar s.data)⟩

/-- HDF5 attribute-key sanitization (src/extraction.py lines 960-961). -/
def sanitizeAttrKey (s : String) : String :=
  ⟨fixLead "attr_".data (sanitizeCore sanAttrChar s.data)⟩

/-- HDF5 dataset-name sanitization (src/extraction.py lines 1118-1119). -/
def sanitizeDatasetName (s : String) : String :=
  ⟨fixLead "sensor_".data (sanitizeCore sanDataChar s.data)⟩

/-- The fields of an extracted record the archive writer's dataset logic
reads (src/extraction.py lines 1102-1189).  Attribute serialization
(metadata, diagnostics, per-channel properties) touches no claim under
verification and is not modelled. -/
structure WRecord where
  sensor_values : List (String × NDArray)
  timestamps : Option (List ℚ)
  sample_rate : Option ℚ
deriving DecidableEq

/-- One top-level HDF5 entry as the writer produces it:
`sensorDatasets = some …` exactly when the nested `sensor_values` group
was created. -/
structure ArchiveEntry where
  name : String
  sensorDatasets : Option (List (String × NDArray))
  timestampsDs : Option (List ℚ)
  sampleRateAttr : Option ℚ
deriving DecidableEq

/-- Dataset shape normalization before saving (src/extraction.py lines
1142-1147): scalars become 1-element 1-D arrays, more than 2-D is
flattened to 1-D, and the numeric 1-D/2-D cases are kept. -/
def savableArray (a : NDArray) : NDArray :=
  if a.ndim = 0 then ⟨[1], a.data⟩
  else if 2 < a.ndim then ⟨[a.size], a.data⟩
  else a

/-- Dataset naming, including the leading-dot guard at line 1152. -/
def datasetName (s : String) : String :=
  let d := sanitizeDatasetName s
  if ".".data.isPrefixOf d.data then "_" ++ d else d

/-- Writer loop state: the HDF5 names already used, the current binding of
the Python local `sensors_group` (`none` = never assigned yet, so a
reference raises `NameError`; `some b` = bound, with `b` recording
`sensors_group is not None`), and the entries written so far.  The
`sensors_group` local is deliberately NOT reset between loop iterations —
that is exactly what the source does (it is only assigned inside the
`if … any non-empty …` block at lines 1106-1109). -/
structure WState where
  used : List String
  sgBound : Option Bool
  entries : List ArchiveEntry

/-- One iteration of the archive-writing loop (src/extraction.py lines
928-1189) restricted to the modelled fields.  `Except` failure is the
`NameError` raised at line 1166 when `sensors_group` is referenced before
any record with non-empty channel data was written; it aborts the whole
save (caught only by the outermost handler at line 1196). -/
def writeOne (st : WState) (p : String × WRecord) : Except String WState :=
  let gname := sanitizeGroupName p.1
  if gname = "" then .ok st
  else if gname ∈ st.used then .ok st
  else
    let r := p.2
    let hasNE := r.sensor_values.any (fun q => 0 < q.2.size)
    let step :
        Option Bool × Option (List (String × NDArray)) :=
      if r.sensor_values ≠ [] ∧ hasNE then
        (some true,
         some (r.sensor_values.filterMap (fun q =>
           if 0 < q.2.size then some (datasetName q.1, savableArray q.2) else none)))
      else (st.sgBound, none)
    if r.timestamps.isSome then
      match step.1 with
      | none => .error "NameError: name 'sensors_group' is not defined"
      | some b =>
        let writeTs := b ∨ (r.sensor_values ≠ [] ∧ hasNE)
        .ok { used := st.used ++ [gname], sgBound := step.1,
              entries := st.entries ++
                [{ name := gname, sensorDatasets := step.2,
                   timestampsDs := if writeTs then r.timestamps else none,
                   sampleRateAttr := r.sample_rate }] }
    else
      .ok { used := st.used ++ [gname], sgBound := step.1,
            entries := st.entries ++
              [{ name := gname, sensorDatasets := step.2,
                 timestampsDs := none, sampleRateAttr := r.sample_rate }] }

/-- The archive-writing pass over all records, in insertion order of
`all_extracted_info`. -/
def writeArchive (rs : List (String × WRecord)) : Except String (List ArchiveEntry) :=
  (rs.foldlM writeOne ⟨[], none, []⟩).map (fun st => st.entries)

/-- Python `str.replace pat rep` (non-overlapping, left to right),
structured over a fuel argument so the definition is structurally
recursive (and hence kernel-reducible); every step consumes at least one
character, so fuel equal to the input length is always sufficient. -/
def strReplaceAux (pat rep : List Char) : Nat → List Char → List Char
  | _, [] => []
  | 0, s => s
  | fuel + 1, a :: s =>
    if pat.isPrefixOf (a :: s) ∧ pat ≠ [] then
      rep ++ strReplaceAux pat rep fuel (s.drop (pat.length - 1))
    else
      a :: strReplaceAux pat rep fuel s

/-- Python `str.replace pat rep`. -/
def strReplace (pat rep s : List Char) : List Char :=
  strReplaceAux pat rep s.length s

/-- String-level wrapper for `strReplace`. -/
def pyReplace (s pat rep : String) : String :=
  ⟨strReplace pat.data rep.data s.data⟩

end ExtractingData

namespace ExtractingData

/-- A table written by the flattener: output path plus named columns in
insertion order (`pd.DataFrame` preserves dict insertion order). -/
structure FlatTable where
  path : String
  columns : List (String × List ℚ)
deriving DecidableEq

/-- Column `i` of a 2-D stored dataset (C-order). -/
def colOf (a : NDArray) (i : Nat) : List ℚ :=
  (List.range a.rows).map (fun j => a.data.getD (j * a.cols + i) 0)

/-- Adding one sensor dataset to the growing column dictionary
(src/h5_to_csv.py lines 83-97): 1-D gives one column, 2-D gives one
column per subchannel named `<sensor>_Ch<i+1>`, anything else deletes the
keys already added whose name starts with the sensor name and skips the
sensor. -/
def dfAddSensor (acc : List (String × List ℚ)) (nm : String) (a : NDArray) :
    List (String × List ℚ) :=
  if a.ndim = 1 then acc ++ [(nm, a.data)]
  else if a.ndim = 2 then
    acc ++ (List.range a.cols).map (fun i => (nm ++ "_Ch" ++ toString (i + 1), colOf a i))
  else acc.filter (fun p => ¬ nm.data.isPrefixOf p.1.data)

/-- Python `str.split(sep)` for a single-character separator. -/
def splitOnChar (sep : Char) : List Char → List (List Char)
  | [] => [[]]
  | c :: t =>
    let r := splitOnChar sep t
    if c = sep then [] :: r
    else
      match r with
      | h :: t2 => (c :: h) :: t2
      | [] => [[c]]

/-- Output path construction (src/h5_to_csv.py lines 102-108): the group
name with `__` restored to `/`, `_mat`/`_tdms` restored to extensions,
`.csv` appended, keep only the last path segment, place it under the
output directory.  No part of this consults any sensor-type keyword. -/
def csvPathOfGroup (g : String) : String :=
  let s1 := pyReplace g "__" "/"
  let s2 := pyReplace s1 "_mat" ".mat"
  let s3 := pyReplace s2 "_tdms" ".tdms"
  let fn : String := ⟨(splitOnChar '/' (s3 ++ ".csv").data).getLastD []⟩
  "extracted_csv_data/" ++ fn

/-- The data-eligibility and column-building part of flattening one
archive entry (src/h5_to_csv.py lines 41-100): require the
`sensor_values` sub-group, keep only non-empty datasets, require a
non-empty timestamps dataset whose length equals the first sensor's row
count, then build the column dictionary.  The final guard models
`pd.DataFrame`, which raises on ragged column lengths (the conversion
error is caught at line 116 and counted, not written).  Note nothing here
reads the entry's name. -/
def flattenColumns (sdOpt : Option (List (String × NDArray)))
    (tsdOpt : Option (List ℚ)) : Option (List (String × List ℚ)) :=
  match sdOpt with
  | none => none
  | some allDs =>
    let sensorDs := allDs.filter (fun p => 0 < p.2.size)
    let tsOpt : Option (List ℚ) :=
      match tsdOpt with
      | some t => if 0 < t.length then some t else none
      | none => none
    match sensorDs, tsOpt with
    | fst :: restDs, some ts =>
      if ts.length ≠ fst.2.rows then none
      else
        let df := (fst :: restDs).foldl (fun acc p => dfAddSensor acc p.1 p.2)
          [("Timestamp", ts)]
        if df.all (fun c => c.2.length = ts.length) then some df else none
    | _, _ => none

/-- Flattening one archive entry (src/h5_to_csv.py lines 33-129): the
eligibility/column logic above, with the output path derived from the
entry name (lines 102-108). -/
def flattenEntry (e : ArchiveEntry) : Option FlatTable :=
  (flattenColumns e.sensorDatasets e.timestampsDs).map
    (fun df => { path := csvPathOfGroup e.name, columns := df })

/-- The whole conversion pass: one table per eligible entry. -/
def flattenAll (es : List ArchiveEntry) : List FlatTable :=
  es.filterMap flattenEntry

/-- Column headers of a table. -/
def FlatTable.header (t : FlatTable) : List String :=
  t.columns.map (fun c => c.1)

/-- Row count of a table (the common column length pandas enforces). -/
def FlatTable.nrows (t : FlatTable) : Nat :=
  (t.columns.headD ("", [])).2.length

/-- The Timestamp column of a table. -/
def FlatTable.tsCol (t : FlatTable) : Option (List ℚ) :=
  t.columns.lookup "Timestamp"

end ExtractingData

deriving instance DecidableEq for Except

namespace ExtractingData

/-- The configured TDMS group name (src/extraction.py line 641). -/
def TDMS_GROUP_NAME : String := "Log"

/-- The configured TDMS channel allow-list (src/extraction.py lines
642-652). -/
def TDMS_CHANNEL_NAMES : List String :=
  ["cDAQ9185-1F486B5Mod1/ai0", "cDAQ9185-1F486B5Mod1/ai1",
   "cDAQ9185-1F486B5Mod2/ai0", "cDAQ9185-1F486B5Mod2/ai2",
   "cDAQ9185-1F486B5Mod2/ai3"]

/-- What a walked file contains once opened: a loadable .mat root
dictionary, an openable TDMS file, or something the respective loader
raises on (the safety-net handlers at src/extraction.py lines 717-722 and
744-749 then build a bare error dictionary). -/
inductive FileContent where
  | matC (root : List (String × PyVal))
  | tdmsC (f : TdmsFileM)
  | otherC

/-- One file met by `os.walk`: name, full path, relative path, content. -/
structure WalkFile where
  filename : String
  filepath : String
  relpath : String
  content : FileContent

/-- Per-file outcome of the main loop (src/extraction.py lines 668-799):
`none` = skipped before extraction (hidden/system file, pattern mismatch
or unexpected extension); `some none` = the extraction function returned
Python `None`; `some (some b)` = a record came back, with `b` the
`sensor_values`-non-empty test at line 758 used for the
with-data/metadata-only split. -/
def fileOutcome (w : WalkFile) : Option (Option Bool) :=
  if ".".data.isPrefixOf w.filename.data ∨
     ":Zone.Identifier".data.isSuffixOf w.filename.data then none
  else
    match parse_filename w.filename w.filepath with
    | none => none
    | some md =>
      if ¬ (md.extension = "mat" ∨ md.extension = "tdms") then none
      else
        some (
          if md.extension = "mat" then
            match w.content with
            | .matC root =>
              (extract_data_from_mat root md).map (fun r =>
                decide (r.sensor_values ≠ []) &&
                r.sensor_values.any (fun p => decide (0 < p.2.size)))
            | _ => some false
          else
            match w.content with
            | .tdmsC f =>
              let r := extract_data_from_tdms f md TDMS_GROUP_NAME TDMS_CHANNEL_NAMES
              some (decide (r.sensor_values ≠ []) &&
                r.sensor_values.any (fun p => decide (0 < p.2.size)))
            | _ => some false)

/-- The summary counters and outcome lists the main loop accumulates
(src/extraction.py lines 654-665). -/
structure RunState where
  total : Nat
  skippedInitial : List String
  relevantAttempted : Nat
  withData : List String
  metaOnly : List String
deriving DecidableEq

/-- Initial run state. -/
def initRunState : RunState := ⟨0, [], 0, [], []⟩

/-- One iteration of the main loop (src/extraction.py lines 668-799):
count the file, then route it to exactly one of initially-skipped /
with-data / metadata-only / returned-None. -/
def processOne (s : RunState) (w : WalkFile) : RunState :=
  let s1 := { s with total := s.total + 1 }
  match fileOutcome w with
  | none => { s1 with skippedInitial := s1.skippedInitial ++ [w.relpath] }
  | some none => { s1 with relevantAttempted := s1.relevantAttempted + 1 }
  | some (some true) =>
    { s1 with relevantAttempted := s1.relevantAttempted + 1,
              withData := s1.withData ++ [w.relpath] }
  | some (some false) =>
    { s1 with relevantAttempted := s1.relevantAttempted + 1,
              metaOnly := s1.metaOnly ++ [w.relpath] }

/-- The whole walk. -/
def runAll (fs : List WalkFile) : RunState :=
  fs.foldl processOne initRunState

/-- Whether a walked file is one whose extraction function returned
Python `None` (the count the claim's third summand refers to). -/
def returnedNoneB (w : WalkFile) : Bool :=
  decide (fileOutcome w = some none)

end ExtractingData

namespace ExtractingData

/-- A descriptor as `parse_filename` yields for a vibration-folder file. -/
def mdVib : FileDescriptor :=
  { filename := "0Nm_Normal.mat", load := "0Nm", condition := "Normal",
    severity := "No_Severity", extension := "mat", sensor_type := "Vibration",
    filepath := "/data/vibration/0Nm_Normal.mat" }

/-- A descriptor as `parse_filename` yields for a current,temp file. -/
def mdTdms : FileDescriptor :=
  { filename := "0Nm_Normal.tdms", load := "0Nm", condition := "Normal",
    severity := "No_Severity", extension := "tdms",
    sensor_type := "Temp_Current",
    filepath := "/data/current,temp/0Nm_Normal.tdms" }

/-- Claim C1 as stated: for every file that opens, both extractors return
a record object — in particular the format-A extractor never returns the
`None` sentinel, even when the `Signal`/`signal` key is missing. -/
def C1_claim : Prop :=
  (∀ root md, (extract_data_from_mat root md).isSome) ∧
  (∀ f md gname cnames, ∃ r, extract_data_from_tdms f md gname cnames = r)

/-- A loaded .mat root whose `y_values` payload is a 1-D `(3,)` array —
the shape the reshaping law says must be stored as `(3,1)`. -/
def c3root : List (String × PyVal) :=
  [("Signal", .objArr [1, 1] [.void
     [("x_values", .num 0),
      ("y_values", .objArr [1, 1] [.void [("values", .arr ⟨[3], [1, 2, 3]⟩)]])]])]

/-- The record the C2 scenario writes first: one non-empty channel, no
timestamps. -/
def c2rec1 : WRecord := ⟨[("X", ⟨[1, 1], [5]⟩)], none, none⟩

/-- The record the C2 scenario writes second: non-null timestamps but no
non-empty channel arrays. -/
def c2rec2 : WRecord := ⟨[], some [0], none⟩

/-- The timestamps of the C4 round-trip record: `arange(1000)/25600`. -/
def c4ts : List ℚ := (List.range 1000).map (fun i : Nat => (i : ℚ) / 25600)

/-- The C4 round-trip record: one `(1000,1)` channel named
`Vibration_Signal`, sample rate 25600. -/
def c4rec : WRecord :=
  ⟨[("Vibration_Signal", ⟨[1000, 1], List.replicate 1000 0⟩)], some c4ts,
   some 25600⟩

/-- The flattener output of writing the C4 record and flattening. -/
def c4output : List FlatTable :=
  match writeArchive [("0Nm_Normal.mat", c4rec)] with
  | .ok es => flattenAll es
  | .error _ => []

/-- Claim C4 as stated: the round trip yields one table with 1000 rows,
columns exactly `["Timestamp", "Vibration_Signal"]`, and the original
timestamp column (rationals model the floats exactly here, so
"floating-point tolerance" is equality). -/
def C4_claim : Prop :=
  ∃ t, c4output = [t] ∧ t.header = ["Timestamp", "Vibration_Signal"] ∧
    t.nrows = 1000 ∧ t.tsCol = some c4ts

/-- Whether a node name matches one of two keywords (substring test, the
only reading of "keyword match against the node name" the container
offers). -/
def keywordHit (k1 k2 n : String) : Prop :=
  listContainsSub k1.data n.data = true ∨ listContainsSub k2.data n.data = true

/-- Claim C5's skipping assertion for a given keyword pair: entries whose
name matches neither keyword have no table written. -/
instance (k1 k2 n : String) : Decidable (keywordHit k1 k2 n) := by
  unfold keywordHit
  infer_instance

def C5_claim (k1 k2 : String) : Prop :=
  ∀ e : ArchiveEntry, ¬ keywordHit k1 k2 e.name → flattenEntry e = none

/-- An eligible archive entry whose name contains no sensor-type keyword
(and not even the format tokens `mat` / `tdms`). -/
def zEntry : ArchiveEntry :=
  ⟨"zzz", some [("s", ⟨[2, 1], [1, 2]⟩)], some [0, 7], none⟩

/-- The table the flattener writes for `zEntry`. -/
def zTable : FlatTable :=
  ⟨"extracted_csv_data/zzz.csv", [("Timestamp", [0, 7]), ("s_Ch1", [1, 2])]⟩

/-- Claim C6 as stated: the three sanitizers are idempotent and all three
sites compute the same function. -/
def C6_claim : Prop :=
  (∀ s, sanitizeGroupName (sanitizeGroupName s) = sanitizeGroupName s) ∧
  (∀ s, sanitizeAttrKey (sanitizeAttrKey s) = sanitizeAttrKey s) ∧
  (∀ s, sanitizeDatasetName (sanitizeDatasetName s) = sanitizeDatasetName s) ∧
  (∀ s, sanitizeGroupName s = sanitizeAttrKey s ∧
        sanitizeAttrKey s = sanitizeDatasetName s)

/-- `load` has the shape `<digits>Nm` read literally (the exact
capitalization `Nm`). -/
def loadFormCS (l : String) : Prop :=
  ∃ ds : List Char, ds ≠ [] ∧ (∀ c ∈ ds, c.isDigit = true) ∧
    l.data = ds ++ ['N', 'm']

/-- Claim C7 as stated: on a grammar match the severity is the
`No_Severity` sentinel iff no non-empty severity token was present, and
the load is literally `<digits>Nm`; on a non-match the classifier yields
`None`. -/
def C7_claim : Prop :=
  (∀ fn fp : String, ∀ d, parse_filename fn fp = some d →
     ((d.severity = "No_Severity") ↔ sevToken fn = some []) ∧ loadFormCS d.load) ∧
  (∀ fn fp : String, regexMatch fn.data = none → parse_filename fn fp = none)

/-- The descriptor the classifier actually returns for the C7
counterexample filename. -/
def c7desc : FileDescriptor :=
  { filename := "0nm_BPFI_No_Severity.mat", load := "0nm", condition := "BPFI",
    severity := "No_Severity", extension := "mat",
    sensor_type := "Mat_Unknown_Path", filepath := "/p" }

/-- The descriptor for a well-behaved filename, used as the C7 witness. -/
def c7descGood : FileDescriptor :=
  { filename := "0Nm_BPFI_03.mat", load := "0Nm", condition := "BPFI",
    severity := "03", extension := "mat", sensor_type := "Mat_Unknown_Path",
    filepath := "/p" }

/-- A loaded .mat root with fully valid nesting: increment 2 (so sample
rate 1/2) and a `(4,1)` channel. -/
def c9root : List (String × PyVal) :=
  [("signal", .objArr [1, 1] [.void
     [("x_values", .objArr [1, 1] [.void
        [("start_value", .num 0), ("increment", .num 2),
         ("number_of_values", .num 4)]]),
      ("y_values", .objArr [1, 1] [.void
        [("values", .arr ⟨[4, 1], [1, 2, 3, 4]⟩)]])]])]

/-- The sample rate the format-A extractor derives on `c9root`. -/
def c9rate : ℚ :=
  ((extract_data_from_mat c9root mdVib).bind ExtractedInfo.sample_rate).getD 0

/-- A TDMS file with a `Log` group holding one allow-listed channel with
`wf_increment = 4` (so sample rate 1/4). -/
def c9tdms : TdmsFileM :=
  ⟨[⟨"Log", [⟨"cDAQ9185-1F486B5Mod1/ai0", [("wf_increment", .pnum 4)],
     .okArr ⟨[3], [0, 0, 0]⟩⟩]⟩]⟩

/-- The sample rate the format-B extractor derives on `c9tdms`. -/
def c9rateT : ℚ :=
  (extract_data_from_tdms c9tdms mdTdms "Log" TDMS_CHANNEL_NAMES).sample_rate.getD 0

/-- A TDMS file with two allow-listed channels of different lengths
(3 rows, then 5 rows) and `wf_increment = 1`. -/
def c10tdms : TdmsFileM :=
  ⟨[⟨"Log",
     [⟨"cDAQ9185-1F486B5Mod1/ai0", [("wf_increment", .pnum 1)],
       .okArr ⟨[3], [10, 11, 12]⟩⟩,
      ⟨"cDAQ9185-1F486B5Mod1/ai1", [], .okArr ⟨[5], [1, 2, 3, 4, 5]⟩⟩]⟩]⟩

/-- The timestamps the format-B extractor synthesizes on `c10tdms`. -/
def c10ts : List ℚ :=
  ((extract_data_from_tdms c10tdms mdTdms "Log" TDMS_CHANNEL_NAMES).timestamps).getD []

/-- The timestamps the format-A fallback synthesizes on a one-channel
mapping with 3 rows. -/
def c10mts : List ℚ :=
  (matFallback1 1 [("a", ⟨[3, 1], [1, 2, 3]⟩)]).getD []

end ExtractingData
namespace ExtractingData

theorem flatMap_eq_self_of_fixed (sub : Char → List Char) :
    ∀ l : List Char, (∀ c ∈ l, sub c = [c]) → l.flatMap sub = l := by
  intro l h
  induction l with
  | nil => rfl
  | cons a t ih =>
    rw [List.flatMap_cons, h a (by simp), ih (fun c hc => h c (by simp [hc]))]
    rfl

theorem sanitizeCore_out_fixed (sub : Char → List Char)
    (hsub : ∀ c cc, cc ∈ sub c → sub cc = [cc]) (s : List Char) :
    ∀ cc ∈ sanitizeCore sub s, sub cc = [cc] := by
  intro cc h
  rw [sanitizeCore, List.mem_flatMap] at h
  obtain ⟨c, _, hc⟩ := h
  exact hsub c cc hc

theorem sanitizeCore_idem (sub : Char → List Char)
    (hsub : ∀ c cc, cc ∈ sub c → sub cc = [cc]) (s : List Char) :
    sanitizeCore sub (sanitizeCore sub s) = sanitizeCore sub s :=
  flatMap_eq_self_of_fixed sub _ (sanitizeCore_out_fixed sub hsub s)

theorem mem_of_mem_dropWhile {α : Type} (p : α → Bool) :
    ∀ (l : List α) (c : α), c ∈ l.dropWhile p → c ∈ l := by
  intro l
  induction l with
  | nil => intro c h; simp at h
  | cons a t ih =>
    intro c h
    rw [List.dropWhile_cons] at h
    by_cases hp : p a = true
    · simp only [hp, if_true] at h
      exact List.mem_cons_of_mem a (ih c h)
    · simp only [hp, if_false] at h
      exact h

theorem leadOk_append (pre d : List Char) (h : leadOk pre = true) :
    leadOk (pre ++ d) = true := by
  cases pre with
  | nil => simp [leadOk] at h
  | cons c r => simpa [leadOk] using h

theorem san_full_idem (sub : Char → List Char) (pre : List Char)
    (hsub : ∀ c cc, cc ∈ sub c → sub cc = [cc])
    (hpre : sanitizeCore sub pre = pre)
    (hlead : leadOk pre = true) (s : List Char) :
    fixLead pre (sanitizeCore sub (fixLead pre (sanitizeCore sub s))) =
      fixLead pre (sanitizeCore sub s) := by
  have hct : sanitizeCore sub (sanitizeCore sub s) = sanitizeCore sub s :=
    sanitizeCore_idem sub hsub s
  by_cases hL : leadOk (sanitizeCore sub s) = true
  · have hinner : fixLead pre (sanitizeCore sub s) = sanitizeCore sub s := by
      rw [fixLead, if_pos hL]
    rw [hinner, hct, hinner]
  · have hinner : fixLead pre (sanitizeCore sub s) =
        pre ++ (sanitizeCore sub s).dropWhile (fun c => c = '_') := by
      rw [fixLead, if_neg hL]
    have hd : sanitizeCore sub ((sanitizeCore sub s).dropWhile (fun c => c = '_')) =
        (sanitizeCore sub s).dropWhile (fun c => c = '_') := by
      apply flatMap_eq_self_of_fixed
      intro c hc
      exact sanitizeCore_out_fixed sub hsub s c
        (mem_of_mem_dropWhile _ _ c hc)
    have happ : sanitizeCore sub
        (pre ++ (sanitizeCore sub s).dropWhile (fun c => c = '_')) =
        pre ++ (sanitizeCore sub s).dropWhile (fun c => c = '_') := by
      rw [sanitizeCore, List.flatMap_append]
      rw [show (pre.flatMap sub) = pre from hpre]
      rw [show ((sanitizeCore sub s).dropWhile (fun c => c = '_')).flatMap sub =
        (sanitizeCore sub s).dropWhile (fun c => c = '_') from hd]
    rw [hinner, happ, fixLead, if_pos (leadOk_append _ _ hlead)]

theorem sanGroupChar_fixed : ∀ c cc, cc ∈ sanGroupChar c → sanGroupChar cc = [cc] := by
  intro c cc h
  unfold sanGroupChar at h
  split_ifs at h with h1 h2 h3
  · simp at h; subst h; decide
  · simp at h; subst h; decide
  · simp at h
  · simp at h; subst h
    unfold sanGroupChar
    rw [if_neg h1, if_neg h2, if_neg h3]

theorem sanAttrChar_fixed : ∀ c cc, cc ∈ sanAttrChar c → sanAttrChar cc = [cc] := by
  intro c cc h
  unfold sanAttrChar at h
  split_ifs at h with h1 h2
  · simp at h; subst h; decide
  · simp at h
  · simp at h; subst h
    unfold sanAttrChar
    rw [if_neg h1, if_neg h2]

theorem sanDataChar_fixed : ∀ c cc, cc ∈ sanDataChar c → sanDataChar cc = [cc] := by
  intro c cc h
  unfold sanDataChar at h
  split_ifs at h with h1 h2
  · simp at h; subst h; decide
  · simp at h
  · simp at h; subst h
    unfold sanDataChar
    rw [if_neg h1, if_neg h2]

theorem sanitizeGroupName_idem (s : String) :
    sanitizeGroupName (sanitizeGroupName s) = sanitizeGroupName s :=
  congrArg String.mk
    (san_full_idem sanGroupChar "file_".data sanGroupChar_fixed (by decide)
      (by decide) s.data)

theorem sanitizeAttrKey_idem (s : String) :
    sanitizeAttrKey (sanitizeAttrKey s) = sanitizeAttrKey s :=
  congrArg String.mk
    (san_full_idem sanAttrChar "attr_".data sanAttrChar_fixed (by decide)
      (by decide) s.data)

theorem sanitizeDatasetName_idem (s : String) :
    sanitizeDatasetName (sanitizeDatasetName s) = sanitizeDatasetName s :=
  congrArg String.mk
    (san_full_idem sanDataChar "sensor_".data sanDataChar_fixed (by decide)
      (by decide) s.data)

end ExtractingData

namespace ExtractingData

/-- C6 counterexample: the claim "idempotent AND the same substitution
rules are applied uniformly to group names, attribute keys and dataset
names" is false — already at the one-character input `~` the three sites
disagree, because each uses a different fallback prefix (`file_`,
`attr_`, `sensor_`). -/
theorem c6_counterexample : ¬ C6_claim := by
  intro h
  have h2 := (h.2.2.2 "~").1
  revert h2
  decide

/-- C6 amended: each of the three sanitization sites is individually
idempotent, but they are three different functions: the fallback prefixes
differ (witness input `~`), and the attribute-key site lacks the `<`
substitution the other two apply (witness input `<`). -/
theorem c6_sanitization_idem_not_uniform :
    (∀ s, sanitizeGroupName (sanitizeGroupName s) = sanitizeGroupName s) ∧
    (∀ s, sanitizeAttrKey (sanitizeAttrKey s) = sanitizeAttrKey s) ∧
    (∀ s, sanitizeDatasetName (sanitizeDatasetName s) = sanitizeDatasetName s) ∧
    sanitizeGroupName "~" = "file_" ∧ sanitizeAttrKey "~" = "attr_" ∧
    sanitizeDatasetName "~" = "sensor_" ∧
    sanitizeAttrKey "<" = "attr_<" ∧ sanitizeGroupName "<" = "file_" ∧
    sanitizeDatasetName "<" = "sensor_" := by
  refine ⟨sanitizeGroupName_idem, sanitizeAttrKey_idem, sanitizeDatasetName_idem,
    ?_, ?_, ?_, ?_, ?_, ?_⟩ <;> decide

end ExtractingData

namespace ExtractingData

/-- C1 counterexample: on a root dictionary with no `Signal`/`signal` key
the format-A extractor returns Python `None` (src/extraction.py line
163), so the claim that it always yields a record object is false. -/
theorem c1_counterexample : ¬ C1_claim := by
  intro h
  have h2 := h.1 [] mdVib
  revert h2
  decide

/-- C1 amended: the format-B extractor always returns a record — a
missing group yields a record with the error field set and an empty
channel mapping — while the format-A extractor returns `None` exactly
when the `Signal`/`signal` container or the expected `(1,1)` structured
record inside it is missing, and a record object in every other case. -/
theorem c1_amended_record_contract :
    (∀ root md, extract_data_from_mat root md = none ↔ matMainRecord root = none) ∧
    (∀ f md gname cnames,
      f.groups.find? (fun g => g.name = gname) = none →
      (extract_data_from_tdms f md gname cnames).extraction_error =
        some ("Group '" ++ gname ++ "' not found.") ∧
      (extract_data_from_tdms f md gname cnames).sensor_values = []) := by
  constructor
  · intro root md
    unfold extract_data_from_mat
    cases h : matMainRecord root with
    | none => simp
    | some fields =>
      simp only [h]
      constructor
      · intro hc
        split at hc <;> exact Option.noConfusion hc
      · intro hc
        exact Option.noConfusion hc
  · intro f md gname cnames hfind
    unfold extract_data_from_tdms
    rw [hfind]
    exact ⟨rfl, rfl⟩

/-- C1 witness: the amended theorem applied at a concrete TDMS file whose
group list is empty. -/
theorem c1_witness :
    (extract_data_from_tdms ⟨[]⟩ mdTdms "Log" TDMS_CHANNEL_NAMES).extraction_error =
      some "Group 'Log' not found." ∧
    (extract_data_from_tdms ⟨[]⟩ mdTdms "Log" TDMS_CHANNEL_NAMES).sensor_values = [] := by
  have h := c1_amended_record_contract.2 ⟨[]⟩ mdTdms "Log" TDMS_CHANNEL_NAMES (by decide)
  exact ⟨h.1.trans (by decide), h.2⟩

/-- C2 failing run: after the first record binds the writer's
`sensors_group` local, a second record with non-null timestamps and an
empty channel mapping still gets a timestamps dataset (its entry has
`sensorDatasets = none` but `timestampsDs = some [0]`), contradicting the
comment at src/extraction.py line 1165; and had the offending record come
first, the `sensors_group` reference at line 1166 would raise `NameError`
and abort the save. -/
theorem c2_stale_sensors_group :
    writeArchive [("a", c2rec1), ("b", c2rec2)] =
      .ok [{ name := "a", sensorDatasets := some [("X", ⟨[1, 1], [5]⟩)],
             timestampsDs := none, sampleRateAttr := none },
           { name := "b", sensorDatasets := none, timestampsDs := some [0],
             sampleRateAttr := none }] ∧
    writeArchive [("b", c2rec2)] =
      .error "NameError: name 'sensors_group' is not defined" :=
  ⟨by decide, by decide⟩

/-- C3 failing run: a format-A file whose `values` payload has shape
`(3,)` is not stored as `(3,1)` — the 1-D reshape line reads the
undefined name `values_values_array_candidate`, the `NameError` is caught
and the channel mapping is cleared, so the record degrades to
metadata-only.  The same `(3,)` array put through the format-B reshape is
stored as `(3,1)` as the law demands. -/
theorem c3_mat_one_dim_lost :
    extract_data_from_mat c3root mdVib =
      some { metadata := mdVib, sensor_values := [], timestamps := none,
             sample_rate := none,
             inferred_sensor_type := "Vibration (Structured Mat)",
             sensor_names := [],
             extraction_error := some "No non-empty sensor values extracted." } ∧
    reshapeMat ⟨[3], [1, 2, 3]⟩ = none ∧
    reshapeTdms ⟨[3], [1, 2, 3]⟩ = ⟨[3, 1], [1, 2, 3]⟩ :=
  ⟨by decide, by decide, by decide⟩

end ExtractingData

namespace ExtractingData

/-- C5 counterexample: for either plausible reading of the two sensor-type
keywords (the format tokens `mat`/`tdms` that do appear in the path
logic, or the sensor names `Vibration`/`Acoustic`), an eligible entry
named `zzz` — matching neither keyword — still gets a table written, so
no keyword-based skipping exists. -/
theorem c5_counterexample :
    ¬ C5_claim "mat" "tdms" ∧ ¬ C5_claim "Vibration" "Acoustic" := by
  constructor <;>
    · intro h
      have h2 := h zEntry (by decide)
      revert h2
      decide

/-- C5 amended: the flattener writes a table for every entry passing the
data checks regardless of the entry's name; the output path is obtained
from the node name purely by substring replacement (`__` to `/`, `_mat`
to `.mat`, `_tdms` to `.tdms`, appending `.csv`, keeping the last path
segment under the fixed output directory), not by any keyword match. -/
theorem c5_flattener_ignores_name :
    (∀ e t, flattenEntry e = some t → t.path = csvPathOfGroup e.name) ∧
    (∀ e n2, flattenEntry { e with name := n2 } =
      (flattenEntry e).map (fun t => { t with path := csvPathOfGroup n2 })) := by
  constructor
  · intro e t h
    simp only [flattenEntry, Option.map_eq_some'] at h
    obtain ⟨df, _, h2⟩ := h
    rw [← h2]
  · intro e n2
    cases h : flattenColumns e.sensorDatasets e.timestampsDs <;>
      simp [flattenEntry, h]

/-- C5 witness: the amended theorem applied to the concrete keyword-free
entry `zEntry` and its table. -/
theorem c5_witness : zTable.path = csvPathOfGroup "zzz" :=
  c5_flattener_ignores_name.1 zEntry zTable (by decide)

end ExtractingData

namespace ExtractingData

set_option maxRecDepth 100000 in
/-- Full evaluation of the C4 round trip: writing the record and
flattening the entry yields exactly one table, whose sensor column is
named with the `_Ch1` suffix the flattener appends to every 2-D dataset
(src/h5_to_csv.py line 91). -/
theorem c4_eval :
    c4output = [{ path := "extracted_csv_data/0Nm_Normal.mat.csv",
                  columns := [("Timestamp", c4ts),
                    ("Vibration_Signal_Ch1",
                      colOf ⟨[1000, 1], List.replicate 1000 0⟩ 0)] }] := rfl

set_option maxRecDepth 100000 in
/-- C4 counterexample: the round trip does NOT produce the column list
`["Timestamp", "Vibration_Signal"]` — the stored dataset has shape
`(1000, 1)`, so the flattener emits `Vibration_Signal_Ch1`. -/
theorem c4_counterexample : ¬ C4_claim := by
  intro h
  obtain ⟨t, h1, h2, h3, h4⟩ := h
  rw [c4_eval] at h1
  injection h1 with ha _
  rw [← ha] at h2
  revert h2
  decide

set_option maxRecDepth 100000 in
/-- C4 amended: the round trip yields one table with 1000 rows, columns
`["Timestamp", "Vibration_Signal_Ch1"]`, and a Timestamp column equal to
the original `arange(1000)/25600` array (exactly — the model's rationals
carry no rounding). -/
theorem c4_roundtrip_column_names :
    ∃ t, c4output = [t] ∧ t.header = ["Timestamp", "Vibration_Signal_Ch1"] ∧
      t.nrows = 1000 ∧ t.tsCol = some c4ts := by
  refine ⟨_, c4_eval, rfl, ?_, rfl⟩
  show c4ts.length = 1000
  decide

end ExtractingData

namespace ExtractingData

/-- Structure of a successful grammar match: the load capture is the
maximal digit run followed by the two case-insensitive `Nm` characters. -/
theorem regexMatch_shape (s : List Char) (g : RegexGroups)
    (h : regexMatch s = some g) :
    ∃ n m, s.takeWhile Char.isDigit ≠ [] ∧ n.toLower = 'n' ∧ m.toLower = 'm' ∧
      g.g1 = s.takeWhile Char.isDigit ++ [n, m] := by
  simp only [regexMatch] at h
  split at h
  · exact absurd h (by simp)
  · split at h
    · rename_i n m u r heq
      split at h
      · rename_i hcond
        split at h
        · rename_i c g3 v e hmt
          injection h with h2
          refine ⟨n, m, by assumption, hcond.1, hcond.2.1, ?_⟩
          rw [← h2]
        · exact absurd h (by simp)
      · exact absurd h (by simp)
    · exact absurd h (by simp)

end ExtractingData

namespace ExtractingData

/-- C7 amended: on a match of the (case-insensitive) grammar, severity is
the `No_Severity` sentinel iff the severity capture was empty OR was
literally the string `No_Severity`; the load is a non-empty digit run
followed by `Nm` up to case; non-matching filenames (including
`random.txt` and `0Nm.mat`) yield the not-applicable sentinel. -/
theorem c7_amended :
    (∀ fn fp : String, ∀ d, parse_filename fn fp = some d →
      ((d.severity = "No_Severity") ↔
        (sevToken fn = some [] ∨ sevToken fn = some "No_Severity".data)) ∧
      (∃ ds n m, ds ≠ [] ∧ (∀ c ∈ ds, c.isDigit = true) ∧ n.toLower = 'n' ∧
        m.toLower = 'm' ∧ d.load.data = ds ++ [n, m])) ∧
    (∀ fn fp : String, regexMatch fn.data = none → parse_filename fn fp = none) ∧
    parse_filename "random.txt" "/p" = none ∧
    parse_filename "0Nm.mat" "/p" = none := by
  refine ⟨?_, ?_, by decide, by decide⟩
  · intro fn fp d h
    cases hm : regexMatch fn.data with
    | none =>
      rw [parse_filename, hm] at h
      exact absurd h (by simp)
    | some g =>
      rw [parse_filename, hm] at h
      injection h with h2
      subst h2
      have hsev : sevToken fn = some g.g4 := by rw [sevToken, hm]; rfl
      constructor
      · by_cases hg4 : g.g4 = []
        · constructor
          · intro _
            exact Or.inl (by rw [hsev, hg4])
          · intro _
            show (if g.g4 = [] then ("No_Severity" : String) else ⟨g.g4⟩) = "No_Severity"
            rw [if_pos hg4]
        · constructor
          · intro hL
            replace hL : (if g.g4 = [] then ("No_Severity" : String) else ⟨g.g4⟩) =
              "No_Severity" := hL
            rw [if_neg hg4] at hL
            have hdata := congrArg String.data hL
            right
            rw [hsev]
            exact congrArg some hdata
          · intro hR
            show (if g.g4 = [] then ("No_Severity" : String) else ⟨g.g4⟩) = "No_Severity"
            rcases hR with hR | hR
            · rw [hsev] at hR
              injection hR with hR2
              exact absurd hR2 hg4
            · rw [hsev] at hR
              injection hR with hR2
              rw [if_neg hg4]
              exact congrArg String.mk hR2
      · obtain ⟨n, m, hne, hn, hm2, hg1⟩ := regexMatch_shape fn.data g hm
        exact ⟨fn.data.takeWhile Char.isDigit, n, m, hne,
          fun c hc => List.mem_takeWhile_imp hc, hn, hm2, hg1⟩
  · intro fn fp hm
    rw [parse_filename, hm]

end ExtractingData

namespace ExtractingData

/-- C7 counterexample: `0nm_BPFI_No_Severity.mat` matches the grammar
with the non-empty severity token `No_Severity`, yet the classifier
reports severity `No_Severity` (breaking the claimed iff), and its load
`0nm` is not of the literal form `<digits>Nm` (IGNORECASE also accepts
`nm`). -/
theorem c7_counterexample : ¬ C7_claim := by
  intro h
  have h2 := h.1 "0nm_BPFI_No_Severity.mat" "/p" c7desc (by decide)
  have h3 := h2.1.mp (by decide)
  revert h3
  decide

/-- C7 witness: the amended theorem applied at the concrete filenames
`0Nm_BPFI_03.mat` (match) and `hello.txt` (non-match). -/
theorem c7_witness :
    ((c7descGood.severity = "No_Severity") ↔
      (sevToken "0Nm_BPFI_03.mat" = some [] ∨
       sevToken "0Nm_BPFI_03.mat" = some "No_Severity".data)) ∧
    parse_filename "hello.txt" "/p" = none :=
  ⟨(c7_amended.1 "0Nm_BPFI_03.mat" "/p" c7descGood (by decide)).1,
   c7_amended.2.1 "hello.txt" "/p" (by decide)⟩

end ExtractingData

namespace ExtractingData

/-- Effect of one loop iteration on the summary counters: the file lands
in exactly one bucket. -/
theorem processOne_fields (s : RunState) (w : WalkFile) :
    (processOne s w).total = s.total + 1 ∧
    ((processOne s w).skippedInitial.length + (processOne s w).relevantAttempted =
      s.skippedInitial.length + s.relevantAttempted + 1) ∧
    ((processOne s w).relevantAttempted + s.withData.length + s.metaOnly.length =
      s.relevantAttempted + (processOne s w).withData.length +
        (processOne s w).metaOnly.length +
        (if returnedNoneB w = true then 1 else 0)) := by
  cases ho : fileOutcome w with
  | none =>
    refine ⟨?_, ?_, ?_⟩ <;> (simp [processOne, ho, returnedNoneB]; try omega)
  | some b =>
    cases b with
    | none =>
      refine ⟨?_, ?_, ?_⟩ <;> (simp [processOne, ho, returnedNoneB]; try omega)
    | some hb =>
      cases hb <;> refine ⟨?_, ?_, ?_⟩ <;>
        (simp [processOne, ho, returnedNoneB]; try omega)

/-- Fold invariant for the summary counters, generalized over the
starting state. -/
theorem c8_aux : ∀ (fs : List WalkFile) (s : RunState),
    (fs.foldl processOne s).total = s.total + fs.length ∧
    (fs.foldl processOne s).skippedInitial.length +
      (fs.foldl processOne s).relevantAttempted =
      s.skippedInitial.length + s.relevantAttempted + fs.length ∧
    (fs.foldl processOne s).relevantAttempted + s.withData.length +
      s.metaOnly.length =
      s.relevantAttempted + (fs.foldl processOne s).withData.length +
        (fs.foldl processOne s).metaOnly.length + fs.countP returnedNoneB := by
  intro fs
  induction fs with
  | nil => intro s; simp
  | cons w t ih =>
    intro s
    rw [List.foldl_cons, List.countP_cons]
    obtain ⟨h1, h2, h3⟩ := ih (processOne s w)
    obtain ⟨p1, p2, p3⟩ := processOne_fields s w
    cases hb : returnedNoneB w <;> simp only [hb, if_true, if_false] at p3 ⊢ <;>
      simp only [List.length_cons] <;> omega

end ExtractingData

namespace ExtractingData

/-- C8: at the end of a run every walked file is counted exactly once as
initially-skipped or relevant-attempted (`total = skipped + relevant` with
`total` the number of walked files), and the relevant-attempted count is
the sum of the with-data count, the metadata-only count, and the number
of files whose extraction function returned `None` — so the difference
printed at src/extraction.py line 809 equals that actual count. -/
theorem c8_counter_partition (fs : List WalkFile) :
    (runAll fs).total = fs.length ∧
    (runAll fs).total =
      (runAll fs).skippedInitial.length + (runAll fs).relevantAttempted ∧
    (runAll fs).relevantAttempted =
      (runAll fs).withData.length + (runAll fs).metaOnly.length +
        fs.countP returnedNoneB := by
  obtain ⟨h1, h2, h3⟩ := c8_aux fs initRunState
  rw [show initRunState.total = 0 from rfl] at h1
  rw [show initRunState.skippedInitial.length = 0 from rfl,
      show initRunState.relevantAttempted = 0 from rfl] at h2
  rw [show initRunState.relevantAttempted = 0 from rfl,
      show initRunState.withData.length = 0 from rfl,
      show initRunState.metaOnly.length = 0 from rfl] at h3
  exact ⟨by rw [runAll]; omega, by rw [runAll]; omega, by rw [runAll]; omega⟩

end ExtractingData

namespace ExtractingData

/-- The sample rate reconstructed from the x-values increment is positive
(guarded by `increment > 0` at src/extraction.py line 252). -/
theorem matTimeInfo_rate_pos (fields : List (String × PyVal)) (q : ℚ)
    (h : (matTimeInfo fields).2 = some q) : 0 < q := by
  unfold matTimeInfo at h
  cases hp : matTimeParams fields with
  | none => rw [hp] at h; exact absurd h (by simp)
  | some t =>
    obtain ⟨s, i, n⟩ := t
    rw [hp] at h
    dsimp only at h
    split_ifs at h with hg
    · injection h with h2
      rw [← h2]
      exact one_div_pos.mpr hg.1

/-- The fallback sample rate derived from timestamp differences is
positive: it is the reciprocal of a mean of strictly positive
differences, or of a single positive repeating difference
(src/extraction.py lines 371-382). -/
theorem matFallback2_pos (ts : List ℚ) (q : ℚ) (h : matFallback2 ts = some q) :
    0 < q := by
  unfold matFallback2 at h
  dsimp only at h
  split_ifs at h with h1 h2
  · injection h with h2
    rw [← h2]
    apply one_div_pos.mpr
    unfold listMean
    apply div_pos
    · apply List.sum_pos
      · intro x hx
        have := List.mem_filter.mp hx
        exact of_decide_eq_true this.2
      · exact h1
    · have hlen : 0 < ((listDiffs ts).filter (fun d => decide (0 < d))).length :=
        List.length_pos.mpr h1
      exact_mod_cast hlen
  · injection h with h3
    rw [← h3]
    exact one_div_pos.mpr h2.2

end ExtractingData

namespace ExtractingData

/-- Invariant of the first TDMS pass: if the incoming sample rate is
positive-or-absent, so is the resulting one (it is only ever set to the
reciprocal of a `wf_increment` checked positive, src/extraction.py lines
482-488). -/
theorem tdmsFirstPass_rate (names : List String) :
    ∀ (chans : List TdmsChannel) (props : List (String × List (String × TProp)))
      (rate : Option ℚ) (conf : List TdmsChannel),
      (∀ r0, rate = some r0 → 0 < r0) →
      ∀ props2 rate2 conf2,
        tdmsFirstPass names chans props rate conf = .ok (props2, rate2, conf2) →
        ∀ r0, rate2 = some r0 → 0 < r0 := by
  intro chans
  induction chans with
  | nil =>
    intro props rate conf hr p2 r2 c2 h r0 hr0
    unfold tdmsFirstPass at h
    injection h with h2
    injection h2 with ha hb
    injection hb with hb1 hb2
    rw [hb1] at hr
    exact hr r0 hr0
  | cons ch rest ih =>
    intro props rate conf hr p2 r2 c2 h r0 hr0
    unfold tdmsFirstPass at h
    split_ifs at h with hmem
    · cases rate with
      | some r =>
        dsimp only at h
        exact ih _ _ _ hr p2 r2 c2 h r0 hr0
      | none =>
        dsimp only at h
        cases hl : ch.properties.lookup "wf_increment" with
        | none =>
          rw [hl] at h
          dsimp only at h
          exact ih _ _ _ (by intro r1 hc; exact absurd hc (by simp)) p2 r2 c2 h r0 hr0
        | some p =>
          rw [hl] at h
          cases p with
          | pnum qq =>
            dsimp only at h
            split_ifs at h with hq
            · refine ih _ _ _ ?_ p2 r2 c2 h r0 hr0
              intro r1 hc
              injection hc with hc2
              rw [← hc2]
              exact one_div_pos.mpr hq
            · exact ih _ _ _ (by intro r1 hc; exact absurd hc (by simp)) p2 r2 c2 h r0 hr0
          | pstr ss =>
            dsimp only at h
            exact Except.noConfusion h
          | pnone =>
            dsimp only at h
            exact ih _ _ _ (by intro r1 hc; exact absurd hc (by simp)) p2 r2 c2 h r0 hr0
    · exact ih _ _ _ hr p2 r2 c2 h r0 hr0

end ExtractingData

namespace ExtractingData

/-- C9: every sample rate either extractor reports is strictly
positive — each assignment site divides one by a quantity already checked
to be positive. -/
theorem c9_sample_rate_positive :
    (∀ root md q,
      (extract_data_from_mat root md).bind ExtractedInfo.sample_rate = some q →
      0 < q) ∧
    (∀ f md gname cnames q,
      (extract_data_from_tdms f md gname cnames).sample_rate = some q → 0 < q) := by
  constructor
  · intro root md q h
    unfold extract_data_from_mat at h
    cases hmr : matMainRecord root with
    | none => rw [hmr] at h; exact absurd h (by simp)
    | some fields =>
      rw [hmr] at h
      dsimp only at h
      split_ifs at h <;> dsimp only [Option.bind] at h <;>
        first
          | exact matTimeInfo_rate_pos fields q h
          | exact matFallback2_pos _ q h
  · intro f md gname cnames q h
    unfold extract_data_from_tdms at h
    cases hfind : f.groups.find? (fun g => g.name = gname) with
    | none =>
      rw [hfind] at h
      dsimp only [tdmsBase] at h
      exact absurd h (by simp)
    | some g =>
      rw [hfind] at h
      dsimp only at h
      cases hfp : tdmsFirstPass cnames g.channels [] none [] with
      | error pp =>
        rw [hfp] at h
        dsimp only [tdmsBase] at h
        exact absurd h (by simp)
      | ok trip =>
        obtain ⟨props, rate, conf⟩ := trip
        rw [hfp] at h
        dsimp only [tdmsBase] at h
        have hrate := tdmsFirstPass_rate cnames g.channels [] none []
          (by intro r0 hc; exact absurd hc (by simp)) props rate conf hfp
        split_ifs at h
        all_goals dsimp only at h
        all_goals exact hrate q h

end ExtractingData

namespace ExtractingData

/-- C9 witness: the positivity theorem applied at concrete runs — a .mat
file with increment 2 and a TDMS file with `wf_increment` 4. -/
theorem c9_witness : 0 < c9rate ∧ 0 < c9rateT :=
  ⟨c9_sample_rate_positive.1 c9root mdVib c9rate rfl,
   c9_sample_rate_positive.2 c9tdms mdTdms "Log" TDMS_CHANNEL_NAMES c9rateT rfl⟩

end ExtractingData

namespace ExtractingData

/-- C10: whenever timestamps are synthesized from a known sample rate —
the format-A fallback (src/extraction.py lines 358-366) or the format-B
synthesis (lines 583-611) — the array has exactly as many entries as the
row count of the FIRST non-empty channel in the mapping; other channels
are not consulted. -/
theorem c10_fallback_timestamp_length :
    (∀ rate sv ts, matFallback1 rate sv = some ts →
      ∃ p, firstNonEmpty sv = some p ∧ ts.length = p.2.rows) ∧
    (∀ f md gname cnames ts,
      (extract_data_from_tdms f md gname cnames).timestamps = some ts →
      ∃ p, firstNonEmpty
          (extract_data_from_tdms f md gname cnames).sensor_values = some p ∧
        ts.length = p.2.rows) := by
  constructor
  · intro rate sv ts h
    unfold matFallback1 at h
    cases hfe : firstNonEmpty sv with
    | none => rw [hfe] at h; exact Option.noConfusion h
    | some p =>
      rw [hfe] at h
      injection h with h2
      exact ⟨p, rfl, by rw [← h2]; simp⟩
  · intro f md gname cnames ts h
    unfold extract_data_from_tdms at h
    cases hfind : f.groups.find? (fun g => g.name = gname) with
    | none =>
      try rw [hfind] at h
      dsimp only [tdmsBase] at h
      exact absurd h (by simp)
    | some g =>
      try rw [hfind] at h
      dsimp only at h
      cases hfp : tdmsFirstPass cnames g.channels [] none [] with
      | error pp =>
        try rw [hfp] at h
        dsimp only [tdmsBase] at h
        exact absurd h (by simp)
      | ok trip =>
        obtain ⟨props, rate, conf⟩ := trip
        try rw [hfp] at h
        dsimp only [tdmsBase] at h
        by_cases hc : conf.isEmpty
        · rw [if_pos hc] at h
          exact absurd h (by simp)
        · rw [if_neg hc] at h
          dsimp only at h
          have hsv : (extract_data_from_tdms f md gname cnames).sensor_values =
              (List.foldl (tdmsNamingStep props) (0, 0, [], [], [])
                (conf.filterMap (fun ch =>
                  match ch.cdata with
                  | TChanData.okArr a =>
                    if 0 < a.size then some (ch.name, a) else none
                  | _ => none))).2.2.2.1 := by
            unfold extract_data_from_tdms
            rw [hfind]
            dsimp only
            rw [hfp]
            dsimp only [tdmsBase]
            rw [if_neg hc]
          rw [hsv]
          split at h
          · exact absurd h (by simp)
          · rename_i r hrate
            split_ifs at h with hg
            · split at h
              · rename_i p hfe
                split_ifs at h with hrows
                · injection h with h2
                  refine ⟨p, hfe, ?_⟩
                  rw [← h2]
                  simp
              · exact absurd h (by simp)

end ExtractingData

namespace ExtractingData

/-- C10 witness: both parts of the theorem applied at concrete inputs —
the format-B run on `c10tdms` (whose two channels have 3 and 5 rows; the
synthesized timestamps have 3 entries, matching only the first), and the
format-A fallback on a 3-row mapping. -/
theorem c10_witness :
    (∃ p, firstNonEmpty (extract_data_from_tdms c10tdms mdTdms "Log"
        TDMS_CHANNEL_NAMES).sensor_values = some p ∧
      c10ts.length = p.2.rows) ∧
    (∃ p, firstNonEmpty [("a", (⟨[3, 1], [1, 2, 3]⟩ : NDArray))] = some p ∧
      c10mts.length = p.2.rows) ∧
    c10ts.length = 3 ∧ (⟨[5, 1], [1, 2, 3, 4, 5]⟩ : NDArray).rows = 5 :=
  ⟨c10_fallback_timestamp_length.2 c10tdms mdTdms "Log" TDMS_CHANNEL_NAMES c10ts rfl,
   c10_fallback_timestamp_length.1 1 [("a", ⟨[3, 1], [1, 2, 3]⟩)] c10mts rfl,
   by decide, by decide⟩

end ExtractingData
